import Mathlib

/-!
Verification of the entity-tracking and part-assignment subsystem of the
CPACS2GMSH mesh-generation module of CEASIOMpy (generategmesh.py), developed
against its natural-language specification and its test suite
(ceasiompy/CPACS2GMSH/tests/test_generatemesh.py).

The repository snapshot ships only the test suite for this module, so the
operational definitions below are shallow embeddings reconstructed from the
specification (each such definition says so in its doc comment) and are
exercised on the concrete reference geometry that the tests pin down.
-/

/-- A geometric entity identifier: (topological dimension, unique integer tag)
within one modeling session. -/
abbrev DimTag := Nat × Nat

/-- Modelled from the spec: the error taxonomy entry `GeometryIntegrityError`
(generategmesh.py is absent from the snapshot).  Raised when a boundary query
fails or when a boundary surface tag maps to zero or to more than one marker
group after cleaning. -/
inductive GeometryIntegrityError where
  | boundaryQueryFailed (entity : DimTag)
  | surfaceUnassigned (tag : Nat)
  | surfaceMultiplyAssigned (tag : Nat)
deriving DecidableEq

/-- Modelled from the spec: the external geometry kernel is visible to this
bookkeeping layer only through its "boundary of" query, which either resolves
an entity to its ordered list of bounding entities or fails. -/
def Kernel := DimTag → Option (List DimTag)

/-- Append an element to an ordered collection unless it is already present:
the order-stable, first-discovery deduplicated union used by the traversal and
by `ModelPart`. -/
def addNew {α : Type} [DecidableEq α] (acc : List α) (a : α) : List α :=
  if a ∈ acc then acc else acc ++ [a]

/-- Fold `addNew` over a batch of newly discovered entities. -/
def addAllNew {α : Type} [DecidableEq α] (acc : List α) (found : List α) : List α :=
  found.foldl addNew acc

/-- One layer of the topological descent: query the kernel boundary of each
entity in turn, accumulating the bounding entities deduplicated in discovery
order; fail on the first unresolvable boundary query. -/
def boundaryLayer (k : Kernel) :
    List DimTag → List DimTag → Except GeometryIntegrityError (List DimTag)
  | acc, [] => Except.ok acc
  | acc, e :: rest =>
    match k e with
    | none => Except.error (GeometryIntegrityError.boundaryQueryFailed e)
    | some bs => boundaryLayer k (addAllNew acc bs) rest

/-- Modelled from the spec: `get_entities_from_volume` of generategmesh.py
(absent from the snapshot; its tests are present).  Descends the topological
hierarchy volume → bounding surfaces → bounding curves → bounding points and
returns the three deduplicated, discovery-ordered collections, propagating a
failed boundary query as a data-integrity error. -/
def get_entities_from_volume (k : Kernel) (volumes : List DimTag) :
    Except GeometryIntegrityError (List DimTag × List DimTag × List DimTag) :=
  match boundaryLayer k [] volumes with
  | Except.error e => Except.error e
  | Except.ok surfaces =>
    match boundaryLayer k [] surfaces with
    | Except.error e => Except.error e
    | Except.ok curves =>
      match boundaryLayer k [] curves with
      | Except.error e => Except.error e
      | Except.ok points => Except.ok (surfaces, curves, points)

/-- Modelled from the spec: the `ModelPart` aggregate of generategmesh.py
(absent from the snapshot; its tests are present).  One logical aircraft or
domain part: its uid, the set of raw child volumes merged into it, and the
ordered deduplicated tag collections of its volumes and boundary entities. -/
structure ModelPart where
  uid : String
  children_dimtag : Finset DimTag
  volume_tag : List Nat
  surfaces_tags : List Nat
  lines_tags : List Nat
  points_tags : List Nat
deriving DecidableEq

/-- Modelled from the spec: a `ModelPart` is created empty with only its uid. -/
def ModelPart.new (uid : String) : ModelPart :=
  { uid := uid
    children_dimtag := ∅
    volume_tag := []
    surfaces_tags := []
    lines_tags := []
    points_tags := [] }

/-- Modelled from the spec: `ModelPart.associate_child_to_parent` (absent from
the snapshot; its tests are present).  Records the child volume into
`children_dimtag`, traverses its boundary entities, and unions the resulting
volume/surface/line/point tags into the part's ordered collections,
deduplicating against what the part already holds. -/
def ModelPart.associate_child_to_parent (k : Kernel) (p : ModelPart) (v : DimTag) :
    Except GeometryIntegrityError ModelPart :=
  match get_entities_from_volume k [v] with
  | Except.error e => Except.error e
  | Except.ok (ss, ls, ps) =>
    Except.ok { p with
      children_dimtag := insert v p.children_dimtag
      volume_tag := addNew p.volume_tag v.2
      surfaces_tags := addAllNew p.surfaces_tags (ss.map Prod.snd)
      lines_tags := addAllNew p.lines_tags (ls.map Prod.snd)
      points_tags := addAllNew p.points_tags (ps.map Prod.snd) }

/-- Order-stable set difference on tag collections. -/
def removeAll (l remove : List Nat) : List Nat :=
  l.filter (fun t => decide (¬ t ∈ remove))

/-- Modelled from the spec: `ModelPart.clean_inside_entities` (absent from the
snapshot; its tests are present).  Removes from this part's surface/line/point
collections every tag also present in the domain part's corresponding
collection: such shared entities are interior partition artifacts, not true
aircraft-to-fluid boundaries. -/
def ModelPart.clean_inside_entities (p domain_part : ModelPart) : ModelPart :=
  { p with
    surfaces_tags := removeAll p.surfaces_tags domain_part.surfaces_tags
    lines_tags := removeAll p.lines_tags domain_part.lines_tags
    points_tags := removeAll p.points_tags domain_part.points_tags }

/-- The orchestrator's state at the interior-cleaning stage: the aircraft part
collection and the final fused fluid-domain part. -/
structure PipelineState where
  aircraft_parts : List ModelPart
  final_domain : ModelPart
deriving DecidableEq

/-- Modelled from the spec: the `InteriorCleaner` stage cleans every aircraft
part against the final domain part and leaves the domain part itself alone. -/
def interiorCleanerStage (s : PipelineState) : PipelineState :=
  { aircraft_parts := s.aircraft_parts.map (fun p => p.clean_inside_entities s.final_domain)
    final_domain := s.final_domain }

/-- The naming convention by which mirror-duplicate parts are recognised: a
uid carrying the mirrored-part suffix. -/
def mirrorSuffix : List Char := String.toList ("_mirrored")

/-- Whether a part uid denotes the mirrored duplicate of another part. -/
def isMirroredUid (uid : String) : Bool :=
  List.isSuffixOf mirrorSuffix uid.toList

/-- Modelled from the spec: the `SymmetryResolver` stage.  When symmetry is
enabled, every mirror-duplicate part is discarded from the collection in its
entirety; otherwise the collection passes through unchanged. -/
def symmetryResolver (symmetry : Bool) (parts : List ModelPart) : List ModelPart :=
  if symmetry then parts.filter (fun p => !(isMirroredUid p.uid)) else parts

/-- One named marker group of the exported mesh boundary section. -/
structure MarkerBlock where
  markerName : String
  surfaces : List Nat
deriving DecidableEq

/-- Modelled from the spec: the bit-level marker block header of the exported
mesh file, the literal token followed by the marker name. -/
def markerHeader (b : MarkerBlock) : String :=
  "MARKER_TAG= " ++ b.markerName

/-- Modelled from the spec: the marker groups of the exported mesh: one group
per retained aircraft part (named by uid; a part left with no boundary
surfaces after cleaning is omitted), one Farfield group for the outer domain
boundary, and, when symmetry is enabled, one symmetry group for the
cutting-plane faces. -/
def buildMarkerBlocks (retained : List ModelPart) (farfieldSurfs : List Nat)
    (symmetry : Bool) (symmSurfs : List Nat) : List MarkerBlock :=
  (retained.filter (fun p => !p.surfaces_tags.isEmpty)).map
      (fun p => { markerName := p.uid, surfaces := p.surfaces_tags })
    ++ [{ markerName := "Farfield", surfaces := farfieldSurfs }]
    ++ (if symmetry then [{ markerName := "symmetry", surfaces := symmSurfs }] else [])

/-- The boundary-section lines of the exported mesh file: one header line per
marker block. -/
def meshLines (blocks : List MarkerBlock) : List String :=
  blocks.map markerHeader

/-- The marker groups whose surface set contains a given boundary surface
tag. -/
def groupsContaining (blocks : List MarkerBlock) (tag : Nat) : List MarkerBlock :=
  blocks.filter (fun b => decide (tag ∈ b.surfaces))

/-- Modelled from the spec: the deterministic marker lookup for one boundary
surface tag: succeeds with the unique owning group's name, and fails with a
data-integrity error when the tag belongs to zero or to more than one group. -/
def assignMarker (blocks : List MarkerBlock) (tag : Nat) :
    Except GeometryIntegrityError String :=
  match groupsContaining blocks tag with
  | [] => Except.error (GeometryIntegrityError.surfaceUnassigned tag)
  | [b] => Except.ok b.markerName
  | _ => Except.error (GeometryIntegrityError.surfaceMultiplyAssigned tag)

/-- Modelled from the spec: the marker-assignment step over all boundary
surface tags of the final fused geometry, failing on the first tag that does
not belong to exactly one marker group. -/
def assignMarkers (blocks : List MarkerBlock) :
    List Nat → Except GeometryIntegrityError (List String)
  | [] => Except.ok []
  | t :: ts =>
    match assignMarker blocks t with
    | Except.error e => Except.error e
    | Except.ok nm =>
      match assignMarkers blocks ts with
      | Except.error e => Except.error e
      | Except.ok rest => Except.ok (nm :: rest)

/-- Modelled from the spec and test fixture: the boundary topology the kernel
reports for the unit-cube session of the tests (two geometrically identical
unit-cube volumes, tags 1 and 2, resolving to the same boundary entities). -/
def cubeKernel : Kernel := fun d =>
  match d with
  | (3, 1) => some [(2, 1), (2, 2), (2, 3), (2, 4), (2, 5), (2, 6)]
  | (3, 2) => some [(2, 1), (2, 2), (2, 3), (2, 4), (2, 5), (2, 6)]
  | (2, 1) => some [(1, 1), (1, 2), (1, 3), (1, 4)]
  | (2, 2) => some [(1, 5), (1, 6), (1, 7), (1, 8)]
  | (2, 3) => some [(1, 9), (1, 5), (1, 10), (1, 1)]
  | (2, 4) => some [(1, 10), (1, 6), (1, 11), (1, 2)]
  | (2, 5) => some [(1, 11), (1, 7), (1, 12), (1, 3)]
  | (2, 6) => some [(1, 12), (1, 8), (1, 9), (1, 4)]
  | (1, 1) => some [(0, 1), (0, 2)]
  | (1, 2) => some [(0, 2), (0, 3)]
  | (1, 3) => some [(0, 3), (0, 4)]
  | (1, 4) => some [(0, 4), (0, 1)]
  | (1, 5) => some [(0, 5), (0, 6)]
  | (1, 6) => some [(0, 6), (0, 7)]
  | (1, 7) => some [(0, 7), (0, 8)]
  | (1, 8) => some [(0, 8), (0, 5)]
  | (1, 9) => some [(0, 1), (0, 5)]
  | (1, 10) => some [(0, 2), (0, 6)]
  | (1, 11) => some [(0, 3), (0, 7)]
  | (1, 12) => some [(0, 4), (0, 8)]
  | _ => none


/-- Modelled from the spec and test fixture: the boundary topology the kernel
reports for the fused reference geometry of simpletest_cpacs.xml (one
fuselage, one wing, one mirrored wing, one fluid domain).  Child volumes are
(3,2) SimpleFuselage, (3,3) Wing, (3,5) Wing_mirrored and (3,1) the fused
fluid domain; surface 60 (with curve 200 and point 200) is an interior
partition artifact shared between the wing and the fluid domain, and surface
50 is the symmetry cutting plane present only in the half-model session. -/
def simpletestKernel (symmetry : Bool) : Kernel := fun d =>
  match d with
  | (3, 1) =>
    some ([(2, 40), (2, 41), (2, 42), (2, 43), (2, 44), (2, 45), (2, 60)] ++
      (if symmetry then [(2, 50)] else []))
  | (3, 2) => some [(2, 1), (2, 2), (2, 3), (2, 4)]
  | (3, 3) => some [(2, 5), (2, 6), (2, 7), (2, 12), (2, 13), (2, 14), (2, 19), (2, 60)]
  | (3, 5) => some [(2, 21), (2, 22), (2, 23), (2, 24), (2, 25), (2, 26), (2, 27)]
  | (2, 1) => some [(1, 1), (1, 2)]
  | (2, 2) => some [(1, 2), (1, 3)]
  | (2, 3) => some [(1, 3), (1, 4)]
  | (2, 4) => some [(1, 4), (1, 1)]
  | (2, 5) => some [(1, 32), (1, 33), (1, 34), (1, 7)]
  | (2, 6) => some [(1, 7), (1, 8), (1, 9), (1, 15)]
  | (2, 7) => some [(1, 15), (1, 16), (1, 17), (1, 18)]
  | (2, 12) => some [(1, 18), (1, 19), (1, 20)]
  | (2, 13) => some [(1, 20), (1, 29), (1, 30)]
  | (2, 14) => some [(1, 30), (1, 31), (1, 32)]
  | (2, 19) => some [(1, 31), (1, 33)]
  | (2, 21) => some [(1, 41), (1, 42)]
  | (2, 22) => some [(1, 42), (1, 43)]
  | (2, 23) => some [(1, 43), (1, 44)]
  | (2, 24) => some [(1, 44), (1, 45)]
  | (2, 25) => some [(1, 45), (1, 46)]
  | (2, 26) => some [(1, 46), (1, 47)]
  | (2, 27) => some [(1, 47), (1, 41)]
  | (2, 40) => some [(1, 210), (1, 211)]
  | (2, 41) => some [(1, 210), (1, 211)]
  | (2, 42) => some [(1, 210), (1, 211)]
  | (2, 43) => some [(1, 210), (1, 211)]
  | (2, 44) => some [(1, 210), (1, 211)]
  | (2, 45) => some [(1, 210), (1, 211)]
  | (2, 50) => some [(1, 220)]
  | (2, 60) => some [(1, 200)]
  | (1, 1) => some [(0, 1), (0, 2)]
  | (1, 2) => some [(0, 2), (0, 3)]
  | (1, 3) => some [(0, 3), (0, 4)]
  | (1, 4) => some [(0, 4), (0, 1)]
  | (1, 7) => some [(0, 12), (0, 13)]
  | (1, 8) => some [(0, 13), (0, 14)]
  | (1, 9) => some [(0, 14), (0, 19)]
  | (1, 15) => some [(0, 19), (0, 20)]
  | (1, 16) => some [(0, 20), (0, 21)]
  | (1, 17) => some [(0, 21), (0, 5)]
  | (1, 18) => some [(0, 5), (0, 13)]
  | (1, 19) => some [(0, 6), (0, 14)]
  | (1, 20) => some [(0, 7), (0, 19)]
  | (1, 29) => some [(0, 12), (0, 20)]
  | (1, 30) => some [(0, 13), (0, 21)]
  | (1, 31) => some [(0, 14), (0, 5)]
  | (1, 32) => some [(0, 5), (0, 6)]
  | (1, 33) => some [(0, 6), (0, 7)]
  | (1, 34) => some [(0, 7), (0, 12)]
  | (1, 41) => some [(0, 41), (0, 42)]
  | (1, 42) => some [(0, 42), (0, 43)]
  | (1, 43) => some [(0, 43), (0, 44)]
  | (1, 44) => some [(0, 44), (0, 45)]
  | (1, 45) => some [(0, 45), (0, 46)]
  | (1, 46) => some [(0, 46), (0, 47)]
  | (1, 47) => some [(0, 47), (0, 41)]
  | (1, 200) => some [(0, 200)]
  | (1, 210) => some [(0, 210), (0, 211)]
  | (1, 211) => some [(0, 211), (0, 210)]
  | (1, 220) => some [(0, 220)]
  | _ => none

/-- Modelled from the spec: the outer-boundary faces of the fluid domain of
the reference geometry, exported as the Farfield marker group. -/
def farfieldSurfaces : List Nat := [40, 41, 42, 43, 44, 45]

/-- Modelled from the spec: the cutting-plane faces of the retained half of
the reference geometry, exported as the symmetry marker group. -/
def symmetryPlaneSurfaces : List Nat := [50]

/-- Modelled from the spec: the boundary surface tags present in the final
fused reference geometry (aircraft skins, farfield faces and, in the
half-model session, the cutting plane), over which the marker-assignment step
runs. -/
def finalBoundaryTags (symmetry : Bool) : List Nat :=
  [1, 2, 3, 4] ++ [5, 6, 7, 12, 13, 14, 19] ++
    (if symmetry then [] else [21, 22, 23, 24, 25, 26, 27]) ++
    farfieldSurfaces ++ (if symmetry then symmetryPlaneSurfaces else [])

/-- Modelled from the spec: construction of the aircraft `ModelPart`
collection of the reference geometry, one part per logical aircraft part,
each populated by associating its child volume. -/
def aircraftPartsRaw (symmetry : Bool) : Except GeometryIntegrityError (List ModelPart) :=
  match (ModelPart.new ("SimpleFuselage")).associate_child_to_parent
      (simpletestKernel symmetry) (3, 2) with
  | Except.error e => Except.error e
  | Except.ok fuselage =>
    match (ModelPart.new ("Wing")).associate_child_to_parent
        (simpletestKernel symmetry) (3, 3) with
    | Except.error e => Except.error e
    | Except.ok wing =>
      match (ModelPart.new ("Wing_mirrored")).associate_child_to_parent
          (simpletestKernel symmetry) (3, 5) with
      | Except.error e => Except.error e
      | Except.ok wing_m => Except.ok [fuselage, wing, wing_m]

/-- Modelled from the spec: the final fused fluid-domain part of the
reference geometry. -/
def fluidDomain (symmetry : Bool) : Except GeometryIntegrityError ModelPart :=
  (ModelPart.new ("fluid")).associate_child_to_parent (simpletestKernel symmetry) (3, 1)

/-- Modelled from the spec: the marker groups of the exported reference mesh,
after interior cleaning and symmetry resolution. -/
def simpletestBlocks (symmetry : Bool) : List MarkerBlock :=
  match aircraftPartsRaw symmetry, fluidDomain symmetry with
  | Except.ok parts, Except.ok fluid =>
    buildMarkerBlocks
      (symmetryResolver symmetry
        (interiorCleanerStage (PipelineState.mk parts fluid)).aircraft_parts)
      farfieldSurfaces symmetry symmetryPlaneSurfaces
  | _, _ => []

/-- Modelled from the spec: `generate_gmsh` of generategmesh.py (absent from
the snapshot; its tests are present), restricted to the bookkeeping core this
spec covers: build the aircraft parts and the fused fluid domain, clean
interior entities, resolve symmetry, validate the marker assignment of every
boundary surface tag, and return the boundary-section lines of the exported
mesh file together with the aircraft-part collection. -/
def generate_gmsh (symmetry : Bool) :
    Except GeometryIntegrityError (List String × List ModelPart) :=
  match aircraftPartsRaw symmetry with
  | Except.error e => Except.error e
  | Except.ok parts =>
    match fluidDomain symmetry with
    | Except.error e => Except.error e
    | Except.ok fluid =>
      let cleaned := (interiorCleanerStage (PipelineState.mk parts fluid)).aircraft_parts
      let retained := symmetryResolver symmetry cleaned
      let blocks := buildMarkerBlocks retained farfieldSurfaces symmetry symmetryPlaneSurfaces
      match assignMarkers blocks (finalBoundaryTags symmetry) with
      | Except.error e => Except.error e
      | Except.ok _ => Except.ok (meshLines blocks, retained)

/-- The SimpleFuselage part as finally assigned for the reference geometry. -/
def fuselageFinal : ModelPart :=
  { uid := "SimpleFuselage"
    children_dimtag := {(3, 2)}
    volume_tag := [2]
    surfaces_tags := [1, 2, 3, 4]
    lines_tags := [1, 2, 3, 4]
    points_tags := [1, 2, 3, 4] }

/-- The Wing part as finally assigned for the reference geometry, matching
the values pinned down by test_assignation. -/
def wingFinal : ModelPart :=
  { uid := "Wing"
    children_dimtag := {(3, 3)}
    volume_tag := [3]
    surfaces_tags := [5, 6, 7, 12, 13, 14, 19]
    lines_tags := [32, 33, 34, 7, 8, 9, 15, 16, 17, 18, 19, 20, 29, 30, 31]
    points_tags := [5, 6, 7, 12, 13, 14, 19, 20, 21] }

/-- The Wing_mirrored part as finally assigned for the reference geometry. -/
def wingMirroredFinal : ModelPart :=
  { uid := "Wing_mirrored"
    children_dimtag := {(3, 5)}
    volume_tag := [5]
    surfaces_tags := [21, 22, 23, 24, 25, 26, 27]
    lines_tags := [41, 42, 43, 44, 45, 46, 47]
    points_tags := [41, 42, 43, 44, 45, 46, 47] }

/-- The boundary-section lines of the reference mesh exported with symmetry
disabled. -/
def noSymLines : List String :=
  ["MARKER_TAG= SimpleFuselage", "MARKER_TAG= Wing", "MARKER_TAG= Wing_mirrored",
   "MARKER_TAG= Farfield"]

/-- The boundary-section lines of the reference mesh exported with symmetry
enabled. -/
def symLines : List String :=
  ["MARKER_TAG= SimpleFuselage", "MARKER_TAG= Wing", "MARKER_TAG= Farfield",
   "MARKER_TAG= symmetry"]

/-- The surface DimTags of the unit cube in discovery order. -/
def cubeSurfaceDimtags : List DimTag :=
  [(2, 1), (2, 2), (2, 3), (2, 4), (2, 5), (2, 6)]

/-- The curve DimTags of the unit cube in discovery order. -/
def cubeLineDimtags : List DimTag :=
  [(1, 1), (1, 2), (1, 3), (1, 4), (1, 5), (1, 6), (1, 7), (1, 8), (1, 9),
   (1, 10), (1, 11), (1, 12)]

/-- The point DimTags of the unit cube in discovery order. -/
def cubePointDimtags : List DimTag :=
  [(0, 1), (0, 2), (0, 3), (0, 4), (0, 5), (0, 6), (0, 7), (0, 8)]

/-- The ModelPart obtained by associating the second unit-cube volume. -/
def cubePart : ModelPart :=
  { uid := "cube_parent"
    children_dimtag := {(3, 2)}
    volume_tag := [2]
    surfaces_tags := [1, 2, 3, 4, 5, 6]
    lines_tags := [1, 2, 3, 4, 5, 6, 7, 8, 9, 10, 11, 12]
    points_tags := [1, 2, 3, 4, 5, 6, 7, 8] }

/-- The ModelPart obtained by associating the first unit-cube volume as the
final fluid domain. -/
def cubeDomain : ModelPart :=
  { uid := "fluid"
    children_dimtag := {(3, 1)}
    volume_tag := [1]
    surfaces_tags := [1, 2, 3, 4, 5, 6]
    lines_tags := [1, 2, 3, 4, 5, 6, 7, 8, 9, 10, 11, 12]
    points_tags := [1, 2, 3, 4, 5, 6, 7, 8] }

/-! ## General lemmas about the embedded operations -/

theorem addNew_nodup {α : Type} [DecidableEq α] {l : List α} (h : l.Nodup) (a : α) :
    (addNew l a).Nodup := by
  unfold addNew
  by_cases hm : a ∈ l
  · simpa [hm] using h
  · simp [hm, List.nodup_append, h]

theorem addAllNew_nodup {α : Type} [DecidableEq α] {l : List α} (h : l.Nodup)
    (xs : List α) : (addAllNew l xs).Nodup := by
  induction xs generalizing l with
  | nil => exact h
  | cons x xs ih =>
    show (addAllNew (addNew l x) xs).Nodup
    exact ih (addNew_nodup h x)

theorem mem_removeAll {l m : List Nat} {t : Nat} :
    t ∈ removeAll l m ↔ t ∈ l ∧ ¬ t ∈ m := by
  simp [removeAll, List.mem_filter]

theorem removeAll_eq_nil {l m : List Nat} (h : ∀ t ∈ l, t ∈ m) :
    removeAll l m = [] := by
  rw [List.eq_nil_iff_forall_not_mem]
  intro t ht
  rcases mem_removeAll.mp ht with ⟨h1, h2⟩
  exact h2 (h t h1)

theorem removeAll_idem (l m : List Nat) :
    removeAll (removeAll l m) m = removeAll l m := by
  unfold removeAll
  induction l with
  | nil => rfl
  | cons a t ih =>
    by_cases hm : a ∈ m
    · simp [List.filter_cons, hm, ih]
    · simp [List.filter_cons, hm, ih]

theorem clean_idem (p d : ModelPart) :
    (p.clean_inside_entities d).clean_inside_entities d = p.clean_inside_entities d := by
  unfold ModelPart.clean_inside_entities
  simp [removeAll_idem]

theorem stage_idem (s : PipelineState) :
    interiorCleanerStage (interiorCleanerStage s) = interiorCleanerStage s := by
  unfold interiorCleanerStage
  simp only [PipelineState.mk.injEq, and_true]
  generalize s.aircraft_parts = parts
  induction parts with
  | nil => rfl
  | cons a t ih => simp [clean_idem, ih]

/-- A lifecycle operation on one ModelPart after its creation: associating a
discovered child volume, or cleaning against a domain part. -/
inductive PartOp where
  | assoc (k : Kernel) (v : DimTag)
  | clean (d : ModelPart)

/-- Apply one lifecycle operation; a failed association aborts and leaves the
part as it was. -/
def applyOp (p : ModelPart) : PartOp → ModelPart
  | PartOp.assoc k v =>
    match p.associate_child_to_parent k v with
    | Except.error _ => p
    | Except.ok q => q
  | PartOp.clean d => p.clean_inside_entities d

/-- Apply a whole lifecycle, creation first. -/
def applyOps (p : ModelPart) (ops : List PartOp) : ModelPart :=
  ops.foldl applyOp p

/-- The no-duplicate invariant on a part's boundary tag collections. -/
def TagsNodup (p : ModelPart) : Prop :=
  p.surfaces_tags.Nodup ∧ p.lines_tags.Nodup ∧ p.points_tags.Nodup

theorem tagsNodup_new (uid : String) : TagsNodup (ModelPart.new uid) :=
  ⟨List.nodup_nil, List.nodup_nil, List.nodup_nil⟩

theorem tagsNodup_applyOp {p : ModelPart} (h : TagsNodup p) (op : PartOp) :
    TagsNodup (applyOp p op) := by
  cases op with
  | assoc k v =>
    simp only [applyOp]
    rcases hE : p.associate_child_to_parent k v with e | q
    · exact h
    · show TagsNodup q
      unfold ModelPart.associate_child_to_parent at hE
      rcases hG : get_entities_from_volume k [v] with e2 | ⟨ss, ls, ps⟩
      · rw [hG] at hE
        simp at hE
      · rw [hG] at hE
        simp only [Except.ok.injEq] at hE
        subst hE
        exact ⟨addAllNew_nodup h.1 _, addAllNew_nodup h.2.1 _, addAllNew_nodup h.2.2 _⟩
  | clean d =>
    exact ⟨List.Nodup.filter _ h.1, List.Nodup.filter _ h.2.1, List.Nodup.filter _ h.2.2⟩

theorem tagsNodup_applyOps {p : ModelPart} (h : TagsNodup p) (ops : List PartOp) :
    TagsNodup (applyOps p ops) := by
  induction ops generalizing p with
  | nil => exact h
  | cons op rest ih =>
    show TagsNodup (applyOps (applyOp p op) rest)
    exact ih (tagsNodup_applyOp h op)

theorem assignMarker_ok_iff (blocks : List MarkerBlock) (t : Nat) :
    (∃ nm, assignMarker blocks t = Except.ok nm) ↔
      (groupsContaining blocks t).length = 1 := by
  unfold assignMarker
  rcases hg : groupsContaining blocks t with _ | ⟨b, _ | ⟨c, rest⟩⟩
  · simp
  · simp
  · simp

theorem assignMarkers_ok_iff (blocks : List MarkerBlock) (tags : List Nat) :
    (∃ r, assignMarkers blocks tags = Except.ok r) ↔
      ∀ t ∈ tags, (groupsContaining blocks t).length = 1 := by
  induction tags with
  | nil =>
    simp only [List.not_mem_nil, false_implies, implies_true, iff_true]
    exact ⟨[], rfl⟩
  | cons t ts ih =>
    constructor
    · rintro ⟨r, hr⟩
      unfold assignMarkers at hr
      rcases ha : assignMarker blocks t with e | nm
      · rw [ha] at hr
        simp at hr
      · rw [ha] at hr
        rcases hrest : assignMarkers blocks ts with e2 | rest
        · rw [hrest] at hr
          simp at hr
        · intro u hu
          rcases List.mem_cons.mp hu with rfl | hu2
          · exact (assignMarker_ok_iff blocks u).mp ⟨nm, ha⟩
          · exact (ih.mp ⟨rest, hrest⟩) u hu2
    · intro h
      rcases (assignMarker_ok_iff blocks t).mpr (h t (List.mem_cons_self t ts)) with ⟨nm, hnm⟩
      rcases ih.mpr (fun u hu => h u (List.mem_cons_of_mem t hu)) with ⟨r, hr⟩
      refine ⟨nm :: r, ?_⟩
      unfold assignMarkers
      rw [hnm, hr]

theorem assignMarkers_error_of_bad (blocks : List MarkerBlock) (tags : List Nat)
    (t : Nat) (ht : t ∈ tags) (hbad : (groupsContaining blocks t).length ≠ 1) :
    ∃ e, assignMarkers blocks tags = Except.error e := by
  rcases hres : assignMarkers blocks tags with e | r
  · exact ⟨e, rfl⟩
  · exact absurd ((assignMarkers_ok_iff blocks tags).mp ⟨r, hres⟩ t ht) hbad

theorem associate_ok_fields {k : Kernel} {p0 p : ModelPart} {v : DimTag}
    {ss ls ps : List DimTag}
    (hG : get_entities_from_volume k [v] = Except.ok (ss, ls, ps))
    (h : p0.associate_child_to_parent k v = Except.ok p) :
    p.surfaces_tags = addAllNew p0.surfaces_tags (ss.map Prod.snd) ∧
    p.lines_tags = addAllNew p0.lines_tags (ls.map Prod.snd) ∧
    p.points_tags = addAllNew p0.points_tags (ps.map Prod.snd) := by
  unfold ModelPart.associate_child_to_parent at h
  rw [hG] at h
  injection h with h2
  subst h2
  exact ⟨rfl, rfl, rfl⟩

/-! ## Claim theorems -/

/-- C4: for a single unit-cube volume given as input, get_entities_from_volume
returns exactly 6 bounding surfaces, 12 bounding curves and 8 bounding points,
each returned sequence deduplicated by DimTag identity (a shared entity
appears once, at its first discovery) and ordered by discovery order. -/
theorem get_entities_from_volume_cube :
    get_entities_from_volume cubeKernel [(3, 1)] =
      Except.ok (cubeSurfaceDimtags, cubeLineDimtags, cubePointDimtags) ∧
    cubeSurfaceDimtags.length = 6 ∧ cubeLineDimtags.length = 12 ∧
    cubePointDimtags.length = 8 ∧
    cubeSurfaceDimtags.Nodup ∧ cubeLineDimtags.Nodup ∧ cubePointDimtags.Nodup :=
  ⟨rfl, rfl, rfl, rfl, by decide, by decide, by decide⟩

/-- C5: a ModelPart whose only associated volume is geometrically identical to
the domain part's volume (the kernel resolves both volumes to the same
boundary entities) is left with empty surfaces_tags, lines_tags and
points_tags by clean_inside_entities against that domain. -/
theorem clean_inside_entities_full_interior (k : Kernel) (pv dv : DimTag)
    (puid duid : String) (p d : ModelPart)
    (hgeom : get_entities_from_volume k [pv] = get_entities_from_volume k [dv])
    (hp : (ModelPart.new puid).associate_child_to_parent k pv = Except.ok p)
    (hd : (ModelPart.new duid).associate_child_to_parent k dv = Except.ok d) :
    (p.clean_inside_entities d).surfaces_tags = [] ∧
    (p.clean_inside_entities d).lines_tags = [] ∧
    (p.clean_inside_entities d).points_tags = [] := by
  rcases hE : get_entities_from_volume k [pv] with e | ⟨ss, ls, ps⟩
  · unfold ModelPart.associate_child_to_parent at hp
    rw [hE] at hp
    simp at hp
  · have hEd : get_entities_from_volume k [dv] = Except.ok (ss, ls, ps) := by
      rw [← hgeom]
      exact hE
    obtain ⟨hps, hpl, hpp⟩ := associate_ok_fields hE hp
    obtain ⟨hds, hdl, hdp⟩ := associate_ok_fields hEd hd
    refine ⟨?_, ?_, ?_⟩
    · show removeAll p.surfaces_tags d.surfaces_tags = []
      rw [hps, hds]
      exact removeAll_eq_nil (fun t ht => ht)
    · show removeAll p.lines_tags d.lines_tags = []
      rw [hpl, hdl]
      exact removeAll_eq_nil (fun t ht => ht)
    · show removeAll p.points_tags d.points_tags = []
      rw [hpp, hdp]
      exact removeAll_eq_nil (fun t ht => ht)

/-- Witness for C5: the two geometrically identical unit-cube volumes of the
test session, whose cleaned part ends with empty tag collections. -/
theorem clean_inside_entities_full_interior_witness :
    (get_entities_from_volume cubeKernel [(3, 2)] =
        get_entities_from_volume cubeKernel [(3, 1)] ∧
      (ModelPart.new ("cube_parent")).associate_child_to_parent cubeKernel (3, 2) =
        Except.ok cubePart ∧
      (ModelPart.new ("fluid")).associate_child_to_parent cubeKernel (3, 1) =
        Except.ok cubeDomain) ∧
    (cubePart.clean_inside_entities cubeDomain).surfaces_tags = [] ∧
    (cubePart.clean_inside_entities cubeDomain).lines_tags = [] ∧
    (cubePart.clean_inside_entities cubeDomain).points_tags = [] :=
  ⟨⟨rfl, rfl, rfl⟩,
    clean_inside_entities_full_interior cubeKernel (3, 2) (3, 1) ("cube_parent")
      ("fluid") cubePart cubeDomain rfl rfl rfl⟩

/-- C6: clean_inside_entities is a pure set difference: applying it twice
against the same domain gives the same part as applying it once, and the
interior-cleaning stage never changes any collection of the domain part
(surfaces_tags, lines_tags, points_tags, volume_tag, children_dimtag). -/
theorem clean_inside_entities_idempotent_pure (p d : ModelPart) (s : PipelineState) :
    (p.clean_inside_entities d).clean_inside_entities d = p.clean_inside_entities d ∧
    interiorCleanerStage (interiorCleanerStage s) = interiorCleanerStage s ∧
    (interiorCleanerStage s).final_domain.surfaces_tags = s.final_domain.surfaces_tags ∧
    (interiorCleanerStage s).final_domain.lines_tags = s.final_domain.lines_tags ∧
    (interiorCleanerStage s).final_domain.points_tags = s.final_domain.points_tags ∧
    (interiorCleanerStage s).final_domain.volume_tag = s.final_domain.volume_tag ∧
    (interiorCleanerStage s).final_domain.children_dimtag = s.final_domain.children_dimtag :=
  ⟨clean_idem p d, stage_idem s, rfl, rfl, rfl, rfl, rfl⟩

/-- C7: after the interior-cleaning stage, no tag of a non-domain part's
surfaces_tags, lines_tags or points_tags also occurs in the domain part's
corresponding collection. -/
theorem interior_cleaner_disjoint (s : PipelineState) (p : ModelPart)
    (hp : p ∈ (interiorCleanerStage s).aircraft_parts) :
    (∀ t ∈ p.surfaces_tags, ¬ t ∈ s.final_domain.surfaces_tags) ∧
    (∀ t ∈ p.lines_tags, ¬ t ∈ s.final_domain.lines_tags) ∧
    (∀ t ∈ p.points_tags, ¬ t ∈ s.final_domain.points_tags) := by
  simp only [interiorCleanerStage, List.mem_map] at hp
  rcases hp with ⟨q, hq, rfl⟩
  refine ⟨?_, ?_, ?_⟩ <;> intro t ht
  · exact (mem_removeAll.mp ht).2
  · exact (mem_removeAll.mp ht).2
  · exact (mem_removeAll.mp ht).2

/-- A sample raw part for exercising the interior-cleaning stage. -/
def sampleRawPart : ModelPart :=
  { uid := "sample_part"
    children_dimtag := ∅
    volume_tag := [7]
    surfaces_tags := [1, 2]
    lines_tags := [3, 5]
    points_tags := [4, 6] }

/-- A sample domain part sharing one tag per dimension with sampleRawPart. -/
def sampleDomain : ModelPart :=
  { uid := "sample_fluid"
    children_dimtag := ∅
    volume_tag := [9]
    surfaces_tags := [2]
    lines_tags := [5]
    points_tags := [6] }

/-- The sample pipeline state before interior cleaning. -/
def sampleState : PipelineState :=
  { aircraft_parts := [sampleRawPart], final_domain := sampleDomain }

/-- The sample part after interior cleaning. -/
def sampleCleaned : ModelPart :=
  sampleRawPart.clean_inside_entities sampleDomain

/-- Witness for C7: in the sample state, the cleaned part is in the stage
output and shares no tag with the domain at any dimension. -/
theorem interior_cleaner_disjoint_witness :
    sampleCleaned ∈ (interiorCleanerStage sampleState).aircraft_parts ∧
    ((∀ t ∈ sampleCleaned.surfaces_tags, ¬ t ∈ sampleState.final_domain.surfaces_tags) ∧
     (∀ t ∈ sampleCleaned.lines_tags, ¬ t ∈ sampleState.final_domain.lines_tags) ∧
     (∀ t ∈ sampleCleaned.points_tags, ¬ t ∈ sampleState.final_domain.points_tags)) :=
  ⟨by decide, interior_cleaner_disjoint sampleState sampleCleaned (by decide)⟩

/-- C8: starting from creation, after any sequence of lifecycle operations
(associate_child_to_parent calls and cleanings) the part's points_tags,
lines_tags and surfaces_tags contain no duplicate tag values; and symmetry
resolution only keeps parts of the collection unchanged, so it preserves the
invariant as well. -/
theorem tags_nodup_lifecycle (uid : String) (ops : List PartOp)
    (symmetry : Bool) (parts : List ModelPart) :
    TagsNodup (applyOps (ModelPart.new uid) ops) ∧
    symmetryResolver symmetry parts ⊆ parts := by
  refine ⟨tagsNodup_applyOps (tagsNodup_new uid) ops, ?_⟩
  unfold symmetryResolver
  split
  · exact fun x hx => (List.mem_filter.mp hx).1
  · exact fun x hx => hx

/-- C1: the marker-assignment step succeeds exactly when every boundary
surface tag belongs to exactly one marker group's surface set, and fails with
a GeometryIntegrityError when some tag belongs to zero or to more than one
group; for the final fused reference geometry, after interior cleaning and
symmetry resolution, every boundary surface tag belongs to exactly one group
and the assignment succeeds, with and without symmetry. -/
theorem marker_assignment_exactly_one :
    (∀ (blocks : List MarkerBlock) (tags : List Nat),
      (∃ r, assignMarkers blocks tags = Except.ok r) ↔
        ∀ t ∈ tags, (groupsContaining blocks t).length = 1) ∧
    (∀ (blocks : List MarkerBlock) (tags : List Nat) (t : Nat), t ∈ tags →
      (groupsContaining blocks t).length ≠ 1 →
        ∃ e, assignMarkers blocks tags = Except.error e) ∧
    (∀ t ∈ finalBoundaryTags false,
      (groupsContaining (simpletestBlocks false) t).length = 1) ∧
    (∀ t ∈ finalBoundaryTags true,
      (groupsContaining (simpletestBlocks true) t).length = 1) ∧
    (∃ r, assignMarkers (simpletestBlocks false) (finalBoundaryTags false) = Except.ok r) ∧
    (∃ r, assignMarkers (simpletestBlocks true) (finalBoundaryTags true) = Except.ok r) :=
  ⟨assignMarkers_ok_iff, assignMarkers_error_of_bad, by decide, by decide,
    ⟨["SimpleFuselage", "SimpleFuselage", "SimpleFuselage", "SimpleFuselage",
      "Wing", "Wing", "Wing", "Wing", "Wing", "Wing", "Wing",
      "Wing_mirrored", "Wing_mirrored", "Wing_mirrored", "Wing_mirrored",
      "Wing_mirrored", "Wing_mirrored", "Wing_mirrored",
      "Farfield", "Farfield", "Farfield", "Farfield", "Farfield", "Farfield"], rfl⟩,
    ⟨["SimpleFuselage", "SimpleFuselage", "SimpleFuselage", "SimpleFuselage",
      "Wing", "Wing", "Wing", "Wing", "Wing", "Wing", "Wing",
      "Farfield", "Farfield", "Farfield", "Farfield", "Farfield", "Farfield",
      "symmetry"], rfl⟩⟩

/-- C3: the reference aircraft with symmetry disabled: the exported mesh
contains marker blocks Wing, Wing_mirrored, SimpleFuselage and Farfield, and
no symmetry marker block. -/
theorem generate_gmsh_markers :
    generate_gmsh false =
      Except.ok (noSymLines, [fuselageFinal, wingFinal, wingMirroredFinal]) ∧
    "MARKER_TAG= Wing" ∈ noSymLines ∧
    "MARKER_TAG= Wing_mirrored" ∈ noSymLines ∧
    "MARKER_TAG= SimpleFuselage" ∈ noSymLines ∧
    "MARKER_TAG= Farfield" ∈ noSymLines ∧
    ¬ "MARKER_TAG= symmetry" ∈ noSymLines :=
  ⟨rfl, by decide, by decide, by decide, by decide, by decide⟩

/-- C2: the reference aircraft with symmetry enabled: the exported mesh
contains marker blocks Wing, SimpleFuselage, Farfield and symmetry and no
Wing_mirrored block; and the symmetry resolver retains a part exactly when it
is not a mirrored part, keeping retained parts unchanged in their entirety. -/
theorem generate_gmsh_symm_markers :
    generate_gmsh true = Except.ok (symLines, [fuselageFinal, wingFinal]) ∧
    "MARKER_TAG= Wing" ∈ symLines ∧
    "MARKER_TAG= SimpleFuselage" ∈ symLines ∧
    "MARKER_TAG= Farfield" ∈ symLines ∧
    "MARKER_TAG= symmetry" ∈ symLines ∧
    ¬ "MARKER_TAG= Wing_mirrored" ∈ symLines ∧
    (∀ (parts : List ModelPart) (p : ModelPart),
      p ∈ symmetryResolver true parts → p ∈ parts ∧ isMirroredUid p.uid = false) ∧
    (∀ (parts : List ModelPart) (p : ModelPart),
      p ∈ parts → isMirroredUid p.uid = false → p ∈ symmetryResolver true parts) := by
  refine ⟨rfl, by decide, by decide, by decide, by decide, by decide, ?_, ?_⟩
  · intro parts p hp
    simp only [symmetryResolver, if_true] at hp
    have h2 := List.mem_filter.mp hp
    refine ⟨h2.1, ?_⟩
    simpa using h2.2
  · intro parts p hp hm
    simp only [symmetryResolver, if_true]
    exact List.mem_filter.mpr ⟨hp, by simp [hm]⟩

/-- C9: marker block headers consist of the literal token MARKER_TAG=
followed by the marker name, and the marker names are exactly the uid values
of the retained parts plus Farfield and, when symmetry is enabled,
symmetry. -/
theorem marker_header_format :
    (∀ b : MarkerBlock, markerHeader b = "MARKER_TAG= " ++ b.markerName) ∧
    (simpletestBlocks false).map MarkerBlock.markerName =
      ["SimpleFuselage", "Wing", "Wing_mirrored", "Farfield"] ∧
    (simpletestBlocks true).map MarkerBlock.markerName =
      ["SimpleFuselage", "Wing", "Farfield", "symmetry"] ∧
    (∀ (retained : List ModelPart) (ff symmSurfs : List Nat) (sym : Bool),
      (buildMarkerBlocks retained ff sym symmSurfs).map MarkerBlock.markerName =
        (retained.filter (fun p => !p.surfaces_tags.isEmpty)).map ModelPart.uid ++
          ["Farfield"] ++ (if sym then ["symmetry"] else [])) := by
  refine ⟨fun b => rfl, rfl, rfl, ?_⟩
  intro retained ff symmSurfs sym
  cases sym <;> simp [buildMarkerBlocks, Function.comp]

/-- C10: generate_gmsh returns the aircraft-part collection as the second
component of its result, and for the reference model with symmetry disabled
the assignment is fully determined: the Wing part carries exactly the
children, volume, surface, line and point tags pinned by test_assignation,
and the SimpleFuselage and Wing_mirrored parts carry children (3,2) and
(3,5). -/
theorem generate_gmsh_assignation :
    generate_gmsh false =
      Except.ok (noSymLines, [fuselageFinal, wingFinal, wingMirroredFinal]) ∧
    (∀ p ∈ [fuselageFinal, wingFinal, wingMirroredFinal],
      (p.uid = "Wing" →
        p.children_dimtag = ({(3, 3)} : Finset DimTag) ∧
        p.volume_tag = [3] ∧
        p.surfaces_tags = [5, 6, 7, 12, 13, 14, 19] ∧
        p.lines_tags = [32, 33, 34, 7, 8, 9, 15, 16, 17, 18, 19, 20, 29, 30, 31] ∧
        p.points_tags = [5, 6, 7, 12, 13, 14, 19, 20, 21]) ∧
      (p.uid = "SimpleFuselage" → p.children_dimtag = ({(3, 2)} : Finset DimTag)) ∧
      (p.uid = "Wing_mirrored" → p.children_dimtag = ({(3, 5)} : Finset DimTag))) :=
  ⟨rfl, by decide⟩
